import Mathlib

/-!
Verification of serve.py, the development HTTP server launcher of the
Timex Datalink Web Client repository.

The Python source is shallowly embedded.  The header-override method
`CustomHTTPRequestHandler.end_headers` becomes a function on an explicit
handler state holding the raw request target and the buffered header
lines; `main` becomes a function from an environment describing which
effects fail to the ordered trace of observable effects the run performs,
together with its outcome (normal return or propagating exception).
-/

/-- Python exceptions, as far as serve.py distinguishes them: the
keyboard interrupt it catches around the accept loop, the operating
system error a failed bind raises, and everything else by name. -/
inductive PyExc where
  | KeyboardInterrupt
  | OSError
  | other (name : String)
deriving DecidableEq

/-- Python `str.endswith(suffix)`: true exactly when `suffix` is a
suffix of the character sequence of the string. -/
def pyEndswith (s suffix : String) : Bool :=
  suffix.data.isSuffixOf s.data

/-- State of a request handler at the moment `end_headers` runs: the raw
request target (`self.path`, taken verbatim from the request line, so it
includes any query string) and the header lines queued so far by
`send_header` calls, in order; `flushed` records whether the buffered
block has been written out. -/
structure HandlerState where
  path : String
  headersBuffer : List (String × String)
  flushed : Bool
deriving DecidableEq

/-- `BaseHTTPRequestHandler.send_header`: appends one header line to the
buffer.  It never replaces an existing line with the same keyword. -/
def send_header (st : HandlerState) (keyword value : String) : HandlerState :=
  ⟨st.path, st.headersBuffer ++ [(keyword, value)], st.flushed⟩

/-- `super().end_headers()` of the standard library handler: writes the
buffered header block out, ending the header section of the response. -/
def super_end_headers (st : HandlerState) : HandlerState :=
  ⟨st.path, st.headersBuffer, true⟩

/-- serve.py lines 16-20, `CustomHTTPRequestHandler.end_headers`: if the
raw request target ends in the literal suffix `.js`, queue one more
header line `Content-Type: application/javascript`, then flush the
buffered block via the superclass method. -/
def CustomHTTPRequestHandler.end_headers (st : HandlerState) : HandlerState :=
  super_end_headers
    (if pyEndswith st.path ".js" then
      send_header st "Content-Type" "application/javascript"
    else st)

/-- Default error content type of `BaseHTTPRequestHandler`. -/
def error_content_type : String := "text/html;charset=utf-8"

/-- Header phase of `BaseHTTPRequestHandler.send_error` (the path taken
for 404 and other error responses): queues the error `Content-Type` and
a `Connection: close` line, then calls `self.end_headers()`, which
dispatches to the subclass override. -/
def send_error_headers (st : HandlerState) : HandlerState :=
  CustomHTTPRequestHandler.end_headers
    (send_header (send_header st "Content-Type" error_content_type)
      "Connection" "close")

/-- Values of all `Content-Type` lines of a header block, in order. -/
def contentTypeValues (hs : List (String × String)) : List String :=
  hs.filterMap fun h => if h.1 = "Content-Type" then some h.2 else none

/-- Environment of one run of `main`: whether the `TCPServer`
constructor raises (bind failure) and with which exception, whether
`webbrowser.open` raises and with which exception, and the exception
that eventually terminates the blocking `serve_forever` call (a
keyboard interrupt when the user stops the server). -/
structure Env where
  bindExc : Option PyExc
  browserExc : Option PyExc
  serveExc : PyExc
deriving DecidableEq

/-- Observable effects of a run of `main`, in program order. -/
inductive Event where
  | chdir (dir : String)
  | bind (port : Nat)
  | printLine (s : String)
  | browserOpen (url : String)
  | serveRequests
  | closeSocket
deriving DecidableEq

/-- How the `main` call ends: a normal return, or an exception
propagating out of it. -/
inductive Outcome where
  | normal
  | raised (e : PyExc)
deriving DecidableEq

/-- serve.py line 13. -/
def PORT : Nat := 8000

/-- `Path(__file__).parent`: the directory containing serve.py. -/
def scriptDir : String := "<directory of serve.py>"

/-- A bare `except:` clause matches every exception. -/
def bareExceptMatches (_ : PyExc) : Bool := true

/-- An `except KeyboardInterrupt:` clause matches only that exception. -/
def keyboardInterruptMatches : PyExc → Bool
  | PyExc.KeyboardInterrupt => true
  | _ => false

/-- serve.py lines 22-41, `main`: change into the script directory,
construct the `TCPServer` (binding the socket; a failure there raises
out of `main`), print four lines, attempt `webbrowser.open` under a bare
`except: pass`, then block in `serve_forever` until an exception ends
the loop; a keyboard interrupt is caught and answered with a shutdown
message, anything else propagates.  The `with` statement closes the
server socket on every path that leaves its body. -/
def serve.main (env : Env) : List Event × Outcome :=
  let ev := [Event.chdir scriptDir]
  match env.bindExc with
  | some e => (ev, Outcome.raised e)
  | none =>
    let ev := ev ++
      [Event.bind PORT,
       Event.printLine
         ("Serving Timex Datalink Web Client at http://localhost:" ++ toString PORT),
       Event.printLine ("Web App: http://localhost:" ++ toString PORT ++ "/web/"),
       Event.printLine
         ("Tests: http://localhost:" ++ toString PORT ++ "/tests/test-runner.html"),
       Event.printLine "Press Ctrl+C to stop the server",
       Event.browserOpen ("http://localhost:" ++ toString PORT ++ "/web/")]
    let browserUncaught : Option PyExc :=
      match env.browserExc with
      | none => none
      | some e => if bareExceptMatches e then none else some e
    match browserUncaught with
    | some e => (ev ++ [Event.closeSocket], Outcome.raised e)
    | none =>
      let ev := ev ++ [Event.serveRequests]
      if keyboardInterruptMatches env.serveExc then
        (ev ++ [Event.printLine "\nServer stopped.", Event.closeSocket],
         Outcome.normal)
      else
        (ev ++ [Event.closeSocket], Outcome.raised env.serveExc)

/-- Process exit status of running serve.py as a script: 0 when `main`
returns normally, the interpreter default of 1 (non-zero) when an
exception propagates out of `main` uncaught. -/
def exitStatus : Outcome → Nat
  | Outcome.normal => 0
  | Outcome.raised _ => 1

/-- Recognizer for the accept-loop event. -/
def isServeRequests : Event → Bool
  | Event.serveRequests => true
  | _ => false

/-- The line printed by an event, when it is a print. -/
def printedLine : Event → Option String
  | Event.printLine s => some s
  | _ => none

/-- Lines printed before the accept loop starts. -/
def printsBefore (tr : List Event) : List String :=
  (tr.takeWhile fun e => !isServeRequests e).filterMap printedLine

/-- All lines printed during the run. -/
def allPrints (tr : List Event) : List String :=
  tr.filterMap printedLine

/-- C1: for every request whose raw path ends in the literal suffix
`.js`, whatever headers the default handler already queued (so for any
served file contents, and also when no file backs the request), the
header block finalized by `end_headers` contains a `Content-Type`
header equal to `application/javascript`. -/
theorem C1_js_content_type_override (st : HandlerState)
    (h : pyEndswith st.path ".js" = true) :
    ("Content-Type", "application/javascript") ∈
      (CustomHTTPRequestHandler.end_headers st).headersBuffer := by
  simp [CustomHTTPRequestHandler.end_headers, super_end_headers, send_header, h]

/-- Witness for C1 at the concrete request target `/web/app.js` with an
empty header buffer. -/
theorem C1_js_content_type_override_witness :
    pyEndswith "/web/app.js" ".js" = true ∧
    ("Content-Type", "application/javascript") ∈
      (CustomHTTPRequestHandler.end_headers ⟨"/web/app.js", [], false⟩).headersBuffer :=
  ⟨by decide, C1_js_content_type_override ⟨"/web/app.js", [], false⟩ (by decide)⟩

/-- C2: when the default handler queued exactly one `Content-Type` line
(value `ct`, its inferred type) and the raw path ends in `.js`, the
finalized block carries two `Content-Type` lines: the inferred one and
the appended `application/javascript`; the override appends rather than
replaces. -/
theorem C2_override_appends_second_content_type (st : HandlerState) (ct : String)
    (hjs : pyEndswith st.path ".js" = true)
    (hone : contentTypeValues st.headersBuffer = [ct]) :
    contentTypeValues (CustomHTTPRequestHandler.end_headers st).headersBuffer
      = [ct, "application/javascript"] := by
  simp [CustomHTTPRequestHandler.end_headers, super_end_headers, send_header, hjs,
    contentTypeValues, List.filterMap_append] at *
  simp [hone]

/-- Witness for C2: the target `/web/app.js` whose buffer holds the one
inferred `Content-Type: text/javascript` line. -/
theorem C2_override_appends_second_content_type_witness :
    pyEndswith "/web/app.js" ".js" = true ∧
    contentTypeValues [("Content-Type", "text/javascript")] = ["text/javascript"] ∧
    contentTypeValues
        (CustomHTTPRequestHandler.end_headers
          ⟨"/web/app.js", [("Content-Type", "text/javascript")], false⟩).headersBuffer
      = ["text/javascript", "application/javascript"] :=
  ⟨by decide, by decide,
    C2_override_appends_second_content_type
      ⟨"/web/app.js", [("Content-Type", "text/javascript")], false⟩
      "text/javascript" (by decide) (by decide)⟩

/-- C6: for every request whose raw path does not end in `.js`,
`end_headers` leaves the buffered header block exactly as the default
handler queued it: the override branch has no effect. -/
theorem C6_non_js_headers_unchanged (st : HandlerState)
    (h : pyEndswith st.path ".js" = false) :
    (CustomHTTPRequestHandler.end_headers st).headersBuffer = st.headersBuffer := by
  simp [CustomHTTPRequestHandler.end_headers, super_end_headers, h]

/-- Witness for C6 at the concrete request target `/web/index.html`
carrying the inferred `text/html` line. -/
theorem C6_non_js_headers_unchanged_witness :
    pyEndswith "/web/index.html" ".js" = false ∧
    (CustomHTTPRequestHandler.end_headers
        ⟨"/web/index.html", [("Content-Type", "text/html")], false⟩).headersBuffer
      = [("Content-Type", "text/html")] :=
  ⟨by decide,
    C6_non_js_headers_unchanged
      ⟨"/web/index.html", [("Content-Type", "text/html")], false⟩ (by decide)⟩

/-- C9: the suffix test reads the raw request target, query string
included: the target `/app.js?v=1` gets no override (its buffer is left
as inferred), while any error response (through `send_error`) for a
target ending in `.js` does get the `application/javascript` line. -/
theorem C9_raw_target_suffix_test :
    (CustomHTTPRequestHandler.end_headers
        ⟨"/app.js?v=1", [("Content-Type", "text/javascript")], false⟩).headersBuffer
      = [("Content-Type", "text/javascript")] ∧
    ∀ buf : List (String × String),
      ("Content-Type", "application/javascript") ∈
        (send_error_headers ⟨"/missing.js", buf, false⟩).headersBuffer := by
  refine ⟨by decide, fun buf => ?_⟩
  simp [send_error_headers, CustomHTTPRequestHandler.end_headers, send_header,
    super_end_headers, error_content_type, show pyEndswith "/missing.js" ".js" = true by decide]

/-- C3: when the `TCPServer` constructor raises (port already bound,
permission denied), the exception propagates out of `main` after only
the directory change, the exit status is non-zero, and the accept loop
is never reached. -/
theorem C3_bind_failure_is_fatal (e : PyExc) (br : Option PyExc) (s : PyExc) :
    serve.main ⟨some e, br, s⟩ = ([Event.chdir scriptDir], Outcome.raised e) ∧
    exitStatus (serve.main ⟨some e, br, s⟩).2 ≠ 0 ∧
    Event.serveRequests ∉ (serve.main ⟨some e, br, s⟩).1 := by
  refine ⟨rfl, ?_, ?_⟩ <;> simp [serve.main, exitStatus, scriptDir]

/-- C4: a keyboard interrupt delivered in the accept loop makes the loop
exit, the shutdown message print, and then the socket close, with `main`
returning normally and exit status 0; moreover on every exit path of the
accept loop (any terminating exception) the socket is closed. -/
theorem C4_interrupt_clean_shutdown (br : Option PyExc) :
    (∃ pre : List Event,
        serve.main ⟨none, br, PyExc.KeyboardInterrupt⟩
          = (pre ++ [Event.serveRequests, Event.printLine "\nServer stopped.",
                     Event.closeSocket],
             Outcome.normal)) ∧
    exitStatus (serve.main ⟨none, br, PyExc.KeyboardInterrupt⟩).2 = 0 ∧
    ∀ s : PyExc, Event.closeSocket ∈ (serve.main ⟨none, br, s⟩).1 := by
  refine ⟨?_, ?_, ?_⟩
  · cases br <;>
      exact ⟨[Event.chdir scriptDir, Event.bind PORT,
        Event.printLine
          ("Serving Timex Datalink Web Client at http://localhost:" ++ toString PORT),
        Event.printLine ("Web App: http://localhost:" ++ toString PORT ++ "/web/"),
        Event.printLine
          ("Tests: http://localhost:" ++ toString PORT ++ "/tests/test-runner.html"),
        Event.printLine "Press Ctrl+C to stop the server",
        Event.browserOpen ("http://localhost:" ++ toString PORT ++ "/web/")], rfl⟩
  · cases br <;>
      simp [serve.main, keyboardInterruptMatches, bareExceptMatches, exitStatus]
  · intro s
    cases br <;> cases s <;>
      simp [serve.main, keyboardInterruptMatches, bareExceptMatches]

/-- C5: whatever exception `webbrowser.open` raises, the run is
indistinguishable from one where it raised nothing: same trace (so no
extra output) and same outcome, and when the bind succeeded the accept
loop is still reached. -/
theorem C5_browser_failure_swallowed (b : Option PyExc) (e s : PyExc) :
    serve.main ⟨b, some e, s⟩ = serve.main ⟨b, none, s⟩ ∧
    Event.serveRequests ∈ (serve.main ⟨none, some e, s⟩).1 := by
  constructor
  · cases b <;> simp [serve.main, bareExceptMatches]
  · cases s <;> simp [serve.main, bareExceptMatches, keyboardInterruptMatches]

/-- C7: in every run the directory change is the very first effect, so
it precedes the bind and every accepted connection; and whenever the
bind succeeds, the bind is the second effect, directly after the
directory change. -/
theorem C7_chdir_precedes_bind_and_serving :
    (∀ env : Env, ∃ rest : List Event,
        (serve.main env).1 = Event.chdir scriptDir :: rest) ∧
    (∀ (br : Option PyExc) (s : PyExc),
        List.take 2 (serve.main ⟨none, br, s⟩).1
          = [Event.chdir scriptDir, Event.bind PORT]) := by
  constructor
  · rintro ⟨b, br, s⟩
    cases b <;> cases br <;> cases s <;> exact ⟨_, rfl⟩
  · intro br s
    cases br <;> cases s <;>
      simp [serve.main, bareExceptMatches, keyboardInterruptMatches]

/-- C8 as stated is false: before entering the accept loop the program
prints four lines, not three, at the concrete interrupted run shown. -/
theorem C8_counterexample :
    (printsBefore (serve.main ⟨none, none, PyExc.KeyboardInterrupt⟩).1).length = 4 ∧
    ¬ (printsBefore (serve.main ⟨none, none, PyExc.KeyboardInterrupt⟩).1).length = 3 := by
  constructor <;> decide

/-- C8 amended: after binding succeeds the program prints exactly four
lines before the accept loop (base URL, Web App URL, Tests URL, and the
Ctrl+C instruction); with the shutdown notice of an interrupted run the
fixed output is those four lines plus `\nServer stopped.`. -/
theorem C8_amended_four_startup_lines (br : Option PyExc) (s : PyExc) :
    printsBefore (serve.main ⟨none, br, s⟩).1
      = ["Serving Timex Datalink Web Client at http://localhost:" ++ toString PORT,
         "Web App: http://localhost:" ++ toString PORT ++ "/web/",
         "Tests: http://localhost:" ++ toString PORT ++ "/tests/test-runner.html",
         "Press Ctrl+C to stop the server"] ∧
    allPrints (serve.main ⟨none, br, PyExc.KeyboardInterrupt⟩).1
      = ["Serving Timex Datalink Web Client at http://localhost:" ++ toString PORT,
         "Web App: http://localhost:" ++ toString PORT ++ "/web/",
         "Tests: http://localhost:" ++ toString PORT ++ "/tests/test-runner.html",
         "Press Ctrl+C to stop the server",
         "\nServer stopped."] := by
  constructor
  · cases br <;> cases s <;>
      simp [serve.main, bareExceptMatches, keyboardInterruptMatches, printsBefore,
        isServeRequests, printedLine]
  · cases br <;>
      simp [serve.main, bareExceptMatches, keyboardInterruptMatches, allPrints,
        printedLine]

/-- C10: the bare `except:` clause matches every exception, a keyboard
interrupt included; a run whose browser attempt raises the interrupt is
identical to one whose attempt succeeds, and still enters the accept
loop. -/
theorem C10_bare_except_swallows_interrupt :
    (∀ e : PyExc, bareExceptMatches e = true) ∧
    ∀ s : PyExc,
      serve.main ⟨none, some PyExc.KeyboardInterrupt, s⟩
          = serve.main ⟨none, none, s⟩ ∧
      Event.serveRequests ∈
        (serve.main ⟨none, some PyExc.KeyboardInterrupt, s⟩).1 := by
  refine ⟨fun e => rfl, fun s => ⟨?_, ?_⟩⟩ <;>
    cases s <;> simp [serve.main, bareExceptMatches, keyboardInterruptMatches]
